import Mathlib

/-!
Shallow embedding of the event-sourcing core in `src/index.js`:
the append-only `EventStore`, the `Account` aggregate (the state
projector), and the `CommandHandler` (create / deposit / withdraw /
close).  The HTTP adapter is out of scope of the claims and is not
modelled.  JavaScript numbers used as monetary amounts are modelled as
`Int`; the informational `timestamp` field (`new Date().toISOString()`,
never used for ordering or state) is not modelled.
-/

/-- JavaScript `x || 0` applied to a number: yields `0` when `x` is
falsy (i.e. `0`), otherwise `x` itself. -/
def jsOrZero (x : Int) : Int := if x = 0 then 0 else x

/-- The `data` payload of an event.  In the source it is a plain object
holding `owner`/`initialBalance` for `AccountCreated`, `amount` for
deposits and withdrawals, and `{}` for `AccountClosed`; fields absent in
JavaScript read back as falsy, modelled by the defaults. -/
structure EventData where
  owner : String := ""
  initialBalance : Int := 0
  amount : Int := 0
deriving Repr, DecidableEq

/-- A stored event (`EventStore.prototype.append` builds these):
`id` is the sequence number assigned from the store counter. -/
structure Event where
  id : Nat
  type : String
  aggregateId : String
  data : EventData
deriving Repr, DecidableEq

/-- `function EventStore()` — the events array and the next id counter
(`this.eventId = 1`). -/
structure EventStore where
  events : List Event
  eventId : Nat
deriving Repr, DecidableEq

/-- The freshly constructed store: `this.events = []; this.eventId = 1`. -/
def EventStore.init : EventStore := { events := [], eventId := 1 }

/-- `EventStore.prototype.append`: build the event with the current
counter, push it, bump the counter, return the stored event. -/
def EventStore.append (s : EventStore) (eventType : String)
    (aggregateId : String) (data : EventData) : Event × EventStore :=
  let event : Event :=
    { id := s.eventId, type := eventType, aggregateId := aggregateId,
      data := data }
  (event, { events := s.events ++ [event], eventId := s.eventId + 1 })

/-- `EventStore.prototype.getEventsForAggregate`: the loop collects, in
log order, exactly the events whose `aggregateId` matches. -/
def EventStore.getEventsForAggregate (s : EventStore)
    (aggregateId : String) : List Event :=
  s.events.filter (fun e => e.aggregateId == aggregateId)

/-- `EventStore.prototype.getAllEvents`. -/
def EventStore.getAllEvents (s : EventStore) : List Event := s.events

/-- The `Account` aggregate state. -/
structure Account where
  id : String
  balance : Int
  owner : String
  isActive : Bool
  version : Nat
deriving Repr, DecidableEq

/-- `function Account(id)` — the zero state. -/
def Account.new (id : String) : Account :=
  { id := id, balance := 0, owner := "", isActive := false, version := 0 }

/-- `Account.prototype.apply`: increment `version`, then dispatch on
`event.type`; an unrecognized type falls through every branch and
changes nothing beyond the version increment. -/
def Account.apply (a : Account) (event : Event) : Account :=
  let a := { a with version := a.version + 1 }
  if event.type == "AccountCreated" then
    { a with owner := event.data.owner,
             balance := jsOrZero event.data.initialBalance,
             isActive := true }
  else if event.type == "MoneyDeposited" then
    { a with balance := a.balance + event.data.amount }
  else if event.type == "MoneyWithdrawn" then
    { a with balance := a.balance - event.data.amount }
  else if event.type == "AccountClosed" then
    { a with isActive := false }
  else a

/-- `Account.prototype.loadFromHistory`: fold `apply` over the events
left to right. -/
def Account.loadFromHistory (a : Account) (events : List Event) : Account :=
  events.foldl Account.apply a

/-- The result object of a command handler: `{success:true, event}` or
`{success:false, error}`. -/
inductive CmdResult where
  | ok (event : Event)
  | err (error : String)
deriving Repr, DecidableEq

/-- The `success` field of a handler result. -/
def CmdResult.success : CmdResult → Bool
  | .ok _ => true
  | .err _ => false

namespace CommandHandler

/-- `CommandHandler.prototype.getAccountState`: replay the entity's
events over the zero state. -/
def getAccountState (s : EventStore) (accountId : String) : Account :=
  (Account.new accountId).loadFromHistory (s.getEventsForAggregate accountId)

/-- `CommandHandler.prototype.createAccount`: always appends
`AccountCreated` and returns success; `initialBalance || 0` is applied
to the payload. -/
def createAccount (s : EventStore) (accountId owner : String)
    (initialBalance : Int) : CmdResult × EventStore :=
  let (event, s) := s.append "AccountCreated" accountId
    { owner := owner, initialBalance := jsOrZero initialBalance }
  (.ok event, s)

/-- `CommandHandler.prototype.deposit`: reject non-positive amounts,
otherwise append `MoneyDeposited`. -/
def deposit (s : EventStore) (accountId : String) (amount : Int) :
    CmdResult × EventStore :=
  if amount ≤ 0 then (.err "Amount must be positive", s)
  else
    let (event, s) := s.append "MoneyDeposited" accountId { amount := amount }
    (.ok event, s)

/-- `CommandHandler.prototype.withdraw`: reject non-positive amounts,
replay the account, reject if the balance is short, otherwise append
`MoneyWithdrawn`. -/
def withdraw (s : EventStore) (accountId : String) (amount : Int) :
    CmdResult × EventStore :=
  if amount ≤ 0 then (.err "Amount must be positive", s)
  else
    let account := getAccountState s accountId
    if account.balance < amount then (.err "Insufficient funds", s)
    else
      let (event, s) := s.append "MoneyWithdrawn" accountId { amount := amount }
      (.ok event, s)

/-- `CommandHandler.prototype.closeAccount`: always appends
`AccountClosed` and returns success. -/
def closeAccount (s : EventStore) (accountId : String) :
    CmdResult × EventStore :=
  let (event, s) := s.append "AccountClosed" accountId {}
  (.ok event, s)

end CommandHandler

/-- A command submitted to the handler — one constructor per handler
method. -/
inductive Command where
  | create (accountId owner : String) (initialBalance : Int)
  | deposit (accountId : String) (amount : Int)
  | withdraw (accountId : String) (amount : Int)
  | close (accountId : String)
deriving Repr, DecidableEq

/-- Dispatch a command to its handler method. -/
def Command.handle : Command → EventStore → CmdResult × EventStore
  | .create accountId owner initialBalance, s =>
      CommandHandler.createAccount s accountId owner initialBalance
  | .deposit accountId amount, s => CommandHandler.deposit s accountId amount
  | .withdraw accountId amount, s => CommandHandler.withdraw s accountId amount
  | .close accountId, s => CommandHandler.closeAccount s accountId

/-- Run a list of commands in order, threading the store (rejected
commands leave the store as the handler returned it). -/
def runCommands : List Command → EventStore → EventStore
  | [], s => s
  | c :: cs, s => runCommands cs (c.handle s).2

/-- Every command in the list, run in sequence from `s`, returned
success. -/
def allAccepted : List Command → EventStore → Bool
  | [], _ => true
  | c :: cs, s => (c.handle s).1.success && allAccepted cs (c.handle s).2

/-- A `create` command carries a non-negative initial balance (other
commands trivially qualify). -/
def createNonneg : Command → Bool
  | .create _ _ initialBalance => decide (0 ≤ initialBalance)
  | _ => true

/-- Stores reachable from the fresh store by `append` calls — every
store the running system can exhibit, since `append` is the only
mutator. -/
inductive Reachable : EventStore → Prop
  | init : Reachable EventStore.init
  | append (s : EventStore) (t aid : String) (d : EventData) :
      Reachable s → Reachable (s.append t aid d).2

/-- All projected balances in the store are non-negative. -/
def BalancesNonneg (s : EventStore) : Prop :=
  ∀ id, 0 ≤ (CommandHandler.getAccountState s id).balance

/-! ### Basic lemmas about the projector -/

theorem jsOrZero_nonneg {x : Int} (h : 0 ≤ x) : 0 ≤ jsOrZero x := by
  unfold jsOrZero; split <;> simp [h]

theorem Account.apply_version (a : Account) (e : Event) :
    (a.apply e).version = a.version + 1 := by
  unfold Account.apply
  repeat' split
  all_goals rfl

theorem Account.apply_created (a : Account) (e : Event)
    (h : e.type = "AccountCreated") :
    a.apply e = { a with version := a.version + 1, owner := e.data.owner,
                         balance := jsOrZero e.data.initialBalance,
                         isActive := true } := by
  simp [Account.apply, h]

theorem Account.apply_deposited (a : Account) (e : Event)
    (h : e.type = "MoneyDeposited") :
    a.apply e = { a with version := a.version + 1,
                         balance := a.balance + e.data.amount } := by
  simp [Account.apply, h]

theorem Account.apply_withdrawn (a : Account) (e : Event)
    (h : e.type = "MoneyWithdrawn") :
    a.apply e = { a with version := a.version + 1,
                         balance := a.balance - e.data.amount } := by
  simp [Account.apply, h]

theorem Account.apply_closed (a : Account) (e : Event)
    (h : e.type = "AccountClosed") :
    a.apply e = { a with version := a.version + 1, isActive := false } := by
  simp [Account.apply, h]

theorem Account.apply_unknown (a : Account) (e : Event)
    (h1 : e.type ≠ "AccountCreated") (h2 : e.type ≠ "MoneyDeposited")
    (h3 : e.type ≠ "MoneyWithdrawn") (h4 : e.type ≠ "AccountClosed") :
    a.apply e = { a with version := a.version + 1 } := by
  simp [Account.apply, beq_iff_eq, h1, h2, h3, h4]

theorem Account.loadFromHistory_append (a : Account) (l l' : List Event) :
    a.loadFromHistory (l ++ l') = (a.loadFromHistory l).loadFromHistory l' := by
  simp [Account.loadFromHistory, List.foldl_append]

theorem Account.loadFromHistory_concat (a : Account) (l : List Event)
    (e : Event) :
    a.loadFromHistory (l ++ [e]) = (a.loadFromHistory l).apply e := by
  simp [Account.loadFromHistory, List.foldl_append]

theorem Account.loadFromHistory_version (a : Account) (l : List Event) :
    (a.loadFromHistory l).version = a.version + l.length := by
  induction l generalizing a with
  | nil => simp [Account.loadFromHistory]
  | cons e l ih =>
    show ((a.apply e).loadFromHistory l).version = a.version + (e :: l).length
    rw [ih, Account.apply_version]
    simp; omega

/-! ### Lemmas about the store -/

theorem EventStore.getEventsForAggregate_append (s : EventStore)
    (t aid : String) (d : EventData) (id : String) :
    (s.append t aid d).2.getEventsForAggregate id =
      s.getEventsForAggregate id ++
        (if aid == id then [(s.append t aid d).1] else []) := by
  simp only [EventStore.append, EventStore.getEventsForAggregate,
    List.filter_append, List.filter_cons, List.filter_nil]

theorem CommandHandler.getAccountState_append (s : EventStore)
    (t aid : String) (d : EventData) (id : String) :
    CommandHandler.getAccountState (s.append t aid d).2 id =
      if aid == id then
        (CommandHandler.getAccountState s id).apply (s.append t aid d).1
      else CommandHandler.getAccountState s id := by
  unfold CommandHandler.getAccountState
  rw [EventStore.getEventsForAggregate_append]
  split
  · rw [Account.loadFromHistory_concat]
  · simp [Account.loadFromHistory]

theorem CommandHandler.getAccountState_init (id : String) :
    CommandHandler.getAccountState EventStore.init id = Account.new id := by
  simp [CommandHandler.getAccountState, EventStore.getEventsForAggregate,
    EventStore.init, Account.loadFromHistory]

/-! ### Store invariant from reachability -/

theorem Reachable.invariant {s : EventStore} (h : Reachable s) :
    s.events.Pairwise (fun a b => a.id < b.id) ∧
      ∀ e ∈ s.events, e.id < s.eventId := by
  induction h with
  | init => simp [EventStore.init]
  | append s t aid d hr ih =>
    obtain ⟨hp, hb⟩ := ih
    constructor
    · show (s.events ++ [_]).Pairwise _
      refine List.pairwise_append.mpr ⟨hp, List.pairwise_singleton _ _, ?_⟩
      intro a ha b hb'
      simp only [List.mem_singleton] at hb'
      subst hb'
      exact hb a ha
    · intro e he
      show e.id < s.eventId + 1
      rcases List.mem_append.mp he with he | he
      · exact Nat.lt_succ_of_lt (hb e he)
      · simp only [List.mem_singleton] at he
        subst he
        exact Nat.lt_succ_self _

/-! ### Preservation of non-negative balances by accepted commands -/

theorem balances_nonneg_handle (c : Command) (s : EventStore)
    (hInv : BalancesNonneg s) (hc : createNonneg c = true)
    (ha : (c.handle s).1.success = true) :
    BalancesNonneg (c.handle s).2 := by
  cases c with
  | create accountId owner initialBalance =>
    intro id
    show 0 ≤ (CommandHandler.getAccountState
      (s.append "AccountCreated" accountId
        { owner := owner, initialBalance := jsOrZero initialBalance }).2
      id).balance
    rw [CommandHandler.getAccountState_append]
    split
    · rw [Account.apply_created _ _ rfl]
      have h0 : 0 ≤ initialBalance := of_decide_eq_true hc
      exact jsOrZero_nonneg (jsOrZero_nonneg h0)
    · exact hInv id
  | deposit accountId amount =>
    by_cases hle : amount ≤ 0
    · have : (CommandHandler.deposit s accountId amount).1.success = false := by
        simp [CommandHandler.deposit, if_pos hle, CmdResult.success]
      simp only [Command.handle] at ha
      rw [this] at ha
      exact absurd ha (by simp)
    · intro id
      have hrw : ((Command.deposit accountId amount).handle s).2 =
          (s.append "MoneyDeposited" accountId { amount := amount }).2 := by
        simp [Command.handle, CommandHandler.deposit, if_neg hle]
      rw [hrw, CommandHandler.getAccountState_append]
      split
      · rw [Account.apply_deposited _ _ rfl]
        show 0 ≤ (CommandHandler.getAccountState s id).balance + amount
        have h1 := hInv id
        omega
      · exact hInv id
  | withdraw accountId amount =>
    by_cases hle : amount ≤ 0
    · have : (CommandHandler.withdraw s accountId amount).1.success = false := by
        simp [CommandHandler.withdraw, if_pos hle, CmdResult.success]
      simp only [Command.handle] at ha
      rw [this] at ha
      exact absurd ha (by simp)
    · by_cases hbal :
        (CommandHandler.getAccountState s accountId).balance < amount
      · have : (CommandHandler.withdraw s accountId amount).1.success
            = false := by
          simp [CommandHandler.withdraw, if_neg hle, if_pos hbal,
            CmdResult.success]
        simp only [Command.handle] at ha
        rw [this] at ha
        exact absurd ha (by simp)
      · intro id
        have hrw : ((Command.withdraw accountId amount).handle s).2 =
            (s.append "MoneyWithdrawn" accountId { amount := amount }).2 := by
          simp [Command.handle, CommandHandler.withdraw, if_neg hle,
            if_neg hbal]
        rw [hrw, CommandHandler.getAccountState_append]
        split
        · rw [Account.apply_withdrawn _ _ rfl]
          show 0 ≤ (CommandHandler.getAccountState s id).balance - amount
          next heq =>
            have : accountId = id := by simpa using heq
            subst this
            omega
        · exact hInv id
  | close accountId =>
    intro id
    show 0 ≤ (CommandHandler.getAccountState
      (s.append "AccountClosed" accountId {}).2 id).balance
    rw [CommandHandler.getAccountState_append]
    split
    · rw [Account.apply_closed _ _ rfl]
      exact hInv id
    · exact hInv id

theorem balances_nonneg_run (cmds : List Command) (s : EventStore)
    (hInv : BalancesNonneg s) (hc : cmds.all createNonneg = true)
    (ha : allAccepted cmds s = true) :
    BalancesNonneg (runCommands cmds s) := by
  induction cmds generalizing s with
  | nil => exact hInv
  | cons c cs ih =>
    simp only [List.all_cons, Bool.and_eq_true] at hc
    simp only [allAccepted, Bool.and_eq_true] at ha
    exact ih (c.handle s).2 (balances_nonneg_handle c s hInv hc.1 ha.1)
      hc.2 ha.2

theorem balances_nonneg_init : BalancesNonneg EventStore.init := by
  intro id
  rw [CommandHandler.getAccountState_init]
  exact le_refl 0

/-! ### Claim theorems -/

/-- Claim C1, counterexample: projecting a log that contains an event of
the unrecognized kind "BogusKind" does not produce any `MalformedEvent`
condition — the projector has no failure outcome at all — and yields an
ordinary state in which the unknown event was silently skipped except
for the version increment. -/
theorem unknown_kind_not_rejected_counterexample :
    CommandHandler.getAccountState
        ((EventStore.init.append "BogusKind" "A" {}).2) "A" =
      { id := "A", balance := 0, owner := "", isActive := false,
        version := 1 } := by
  decide

/-- Claim C1, amended: folding an event of an unrecognized kind does not
fail; it leaves the projected state unchanged apart from incrementing
`version` by one (the unknown event is silently skipped). -/
theorem unknown_kind_silently_skipped (a : Account) (l : List Event)
    (e : Event)
    (h1 : e.type ≠ "AccountCreated") (h2 : e.type ≠ "MoneyDeposited")
    (h3 : e.type ≠ "MoneyWithdrawn") (h4 : e.type ≠ "AccountClosed") :
    a.loadFromHistory (l ++ [e]) =
      { a.loadFromHistory l with
        version := (a.loadFromHistory l).version + 1 } := by
  rw [Account.loadFromHistory_concat, Account.apply_unknown _ _ h1 h2 h3 h4]

/-- Claim C1, amended, witness at a concrete unknown-kind event. -/
theorem unknown_kind_silently_skipped_witness :
    (Account.new "A").loadFromHistory
        ([] ++ [{ id := 1, type := "BogusKind", aggregateId := "A",
                  data := {} }]) =
      { Account.new "A" with version := 1 } :=
  unknown_kind_silently_skipped (Account.new "A") []
    { id := 1, type := "BogusKind", aggregateId := "A", data := {} }
    (by decide) (by decide) (by decide) (by decide)

/-- Claim C2, counterexample: the single command
`createAccount "ACC001" "Eve" (-50)` is accepted (createAccount never
rejects and does not validate the initial balance), yet the projected
balance afterwards is `-50 < 0`. -/
theorem no_overdraft_counterexample :
    allAccepted [Command.create "ACC001" "Eve" (-50)] EventStore.init
        = true ∧
      (CommandHandler.getAccountState
        (runCommands [Command.create "ACC001" "Eve" (-50)] EventStore.init)
        "ACC001").balance < 0 := by
  decide

/-- Claim C2, amended: for every sequence of commands in which each
`create` carries a non-negative initial balance, if every command was
accepted then every projected balance is non-negative. -/
theorem no_overdraft_amended (cmds : List Command) (id : String)
    (hc : cmds.all createNonneg = true)
    (ha : allAccepted cmds EventStore.init = true) :
    0 ≤ (CommandHandler.getAccountState
        (runCommands cmds EventStore.init) id).balance :=
  balances_nonneg_run cmds EventStore.init balances_nonneg_init hc ha id

/-- Claim C2, amended, witness on a create/deposit/withdraw run. -/
theorem no_overdraft_amended_witness :
    0 ≤ (CommandHandler.getAccountState
        (runCommands
          [Command.create "ACC001" "John Doe" 100,
           Command.deposit "ACC001" 50, Command.withdraw "ACC001" 30]
          EventStore.init) "ACC001").balance :=
  no_overdraft_amended
    [Command.create "ACC001" "John Doe" 100,
     Command.deposit "ACC001" 50, Command.withdraw "ACC001" 30]
    "ACC001" (by decide) (by decide)

/-- Claim C3: a rejected command leaves the event store — and hence the
event sequence of every entity — exactly as it was; no event is
appended on a rejection. -/
theorem rejection_appends_nothing (c : Command) (s : EventStore)
    (h : (c.handle s).1.success = false) :
    (c.handle s).2 = s ∧
      ∀ id, ((c.handle s).2).getEventsForAggregate id =
        s.getEventsForAggregate id := by
  have hs : (c.handle s).2 = s := by
    cases c with
    | create accountId owner initialBalance =>
      simp [Command.handle, CommandHandler.createAccount, EventStore.append,
        CmdResult.success] at h
    | deposit accountId amount =>
      by_cases hle : amount ≤ 0
      · simp [Command.handle, CommandHandler.deposit, if_pos hle]
      · simp [Command.handle, CommandHandler.deposit, if_neg hle,
          EventStore.append, CmdResult.success] at h
    | withdraw accountId amount =>
      by_cases hle : amount ≤ 0
      · simp [Command.handle, CommandHandler.withdraw, if_pos hle]
      · by_cases hbal :
          (CommandHandler.getAccountState s accountId).balance < amount
        · simp [Command.handle, CommandHandler.withdraw, if_neg hle,
            if_pos hbal]
        · simp [Command.handle, CommandHandler.withdraw, if_neg hle,
            if_neg hbal, EventStore.append, CmdResult.success] at h
    | close accountId =>
      simp [Command.handle, CommandHandler.closeAccount, EventStore.append,
        CmdResult.success] at h
  exact ⟨hs, fun id => by rw [hs]⟩

/-- Claim C3, witness: a rejected deposit on the fresh store leaves the
store unchanged. -/
theorem rejection_appends_nothing_witness :
    ((Command.deposit "ACC001" (-1)).handle EventStore.init).2 =
      EventStore.init :=
  (rejection_appends_nothing (Command.deposit "ACC001" (-1)) EventStore.init
    (by decide)).1

/-- Claim C4: the projected version equals the number of events stored
for the entity, and folding any single event — whatever its kind —
increments the version by exactly one. -/
theorem version_matches_event_count (s : EventStore) (id : String) :
    (CommandHandler.getAccountState s id).version =
        (s.getEventsForAggregate id).length ∧
      ∀ (a : Account) (e : Event), (a.apply e).version = a.version + 1 := by
  constructor
  · rw [CommandHandler.getAccountState, Account.loadFromHistory_version]
    simp [Account.new]
  · exact fun a e => Account.apply_version a e

/-- Claim C5: withdraw first rejects non-positive amounts with the
`InvalidAmount` error ('Amount must be positive'); otherwise it projects
the current state and rejects with `InsufficientFunds`
('Insufficient funds') when the balance is strictly below the amount;
otherwise it appends exactly one `MoneyWithdrawn` event carrying the
amount and returns it as a success. -/
theorem withdraw_spec (s : EventStore) (accountId : String) (amount : Int) :
    (amount ≤ 0 →
      CommandHandler.withdraw s accountId amount =
        (.err "Amount must be positive", s)) ∧
    (¬ amount ≤ 0 →
      (CommandHandler.getAccountState s accountId).balance < amount →
      CommandHandler.withdraw s accountId amount =
        (.err "Insufficient funds", s)) ∧
    (¬ amount ≤ 0 →
      ¬ (CommandHandler.getAccountState s accountId).balance < amount →
      ∃ e, CommandHandler.withdraw s accountId amount =
          (.ok e, { events := s.events ++ [e], eventId := s.eventId + 1 }) ∧
        e.type = "MoneyWithdrawn" ∧ e.aggregateId = accountId ∧
        e.data.amount = amount) := by
  refine ⟨?_, ?_, ?_⟩
  · intro hle
    simp [CommandHandler.withdraw, if_pos hle]
  · intro hle hbal
    simp [CommandHandler.withdraw, if_neg hle, if_pos hbal]
  · intro hle hbal
    refine ⟨(s.append "MoneyWithdrawn" accountId { amount := amount }).1,
      ?_, rfl, rfl, rfl⟩
    simp [CommandHandler.withdraw, if_neg hle, if_neg hbal,
      EventStore.append]

/-- Claim C5, witness: withdrawing 200 from an account whose projected
balance is 120 is rejected with 'Insufficient funds' and returns the
store unchanged. -/
theorem withdraw_spec_witness :
    CommandHandler.withdraw
        (runCommands
          [Command.create "ACC001" "John Doe" 100,
           Command.deposit "ACC001" 20] EventStore.init) "ACC001" 200 =
      (.err "Insufficient funds",
        runCommands
          [Command.create "ACC001" "John Doe" 100,
           Command.deposit "ACC001" 20] EventStore.init) :=
  (withdraw_spec
    (runCommands
      [Command.create "ACC001" "John Doe" 100,
       Command.deposit "ACC001" 20] EventStore.init) "ACC001" 200).2.1
    (by decide) (by decide)

/-- Claim C6: deposit is rejected (success = false) exactly when the
amount is non-positive, in which case the error is `InvalidAmount`
('Amount must be positive') and the store is untouched; otherwise it
appends exactly one `MoneyDeposited` event carrying the amount and
returns it as a success. -/
theorem deposit_spec (s : EventStore) (accountId : String) (amount : Int) :
    ((CommandHandler.deposit s accountId amount).1.success = false ↔
      amount ≤ 0) ∧
    (amount ≤ 0 →
      CommandHandler.deposit s accountId amount =
        (.err "Amount must be positive", s)) ∧
    (¬ amount ≤ 0 →
      ∃ e, CommandHandler.deposit s accountId amount =
          (.ok e, { events := s.events ++ [e], eventId := s.eventId + 1 }) ∧
        e.type = "MoneyDeposited" ∧ e.aggregateId = accountId ∧
        e.data.amount = amount) := by
  refine ⟨?_, ?_, ?_⟩
  · by_cases hle : amount ≤ 0
    · simp [CommandHandler.deposit, if_pos hle, CmdResult.success, hle]
    · simp [CommandHandler.deposit, if_neg hle, EventStore.append,
        CmdResult.success, hle]
  · intro hle
    simp [CommandHandler.deposit, if_pos hle]
  · intro hle
    refine ⟨(s.append "MoneyDeposited" accountId { amount := amount }).1,
      ?_, rfl, rfl, rfl⟩
    simp [CommandHandler.deposit, if_neg hle, EventStore.append]

/-- Claim C6, witness: depositing -10 is rejected with
'Amount must be positive' and the store is unchanged. -/
theorem deposit_spec_witness :
    CommandHandler.deposit EventStore.init "ACC001" (-10) =
      (.err "Amount must be positive", EventStore.init) :=
  (deposit_spec EventStore.init "ACC001" (-10)).2.1 (by decide)

/-- Claim C7: in every reachable store the event list — which is in
append order — has strictly increasing `id` (sequence number) values:
an event appended earlier has a strictly smaller sequence number, so
sequence numbers are unique and monotonically increasing. -/
theorem sequence_numbers_monotonic (s : EventStore) (h : Reachable s) :
    s.events.Pairwise (fun e1 e2 => e1.id < e2.id) :=
  h.invariant.1

/-- Claim C7, witness on a store built by two appends. -/
theorem sequence_numbers_monotonic_witness :
    ((EventStore.init.append "AccountCreated" "A"
          { owner := "o", initialBalance := 100 }).2.append
        "MoneyDeposited" "A" { amount := 50 }).2.events.Pairwise
      (fun e1 e2 => e1.id < e2.id) :=
  sequence_numbers_monotonic _
    (Reachable.append _ _ _ _ (Reachable.append _ _ _ _ Reachable.init))

/-- Claim C8: `getEventsForAggregate` returns exactly the events of the
log whose `aggregateId` matches (a filter of the log in log order), for
a reachable store that sublist is in ascending sequence-number order,
and when the entity has no events the result is the empty list, not an
error. -/
theorem eventsFor_spec (s : EventStore) (id : String) (h : Reachable s) :
    s.getEventsForAggregate id =
        s.events.filter (fun e => e.aggregateId == id) ∧
      (s.getEventsForAggregate id).Pairwise (fun e1 e2 => e1.id < e2.id) ∧
      ((∀ e ∈ s.events, e.aggregateId ≠ id) →
        s.getEventsForAggregate id = []) := by
  refine ⟨rfl, ?_, ?_⟩
  · exact List.Pairwise.sublist (List.filter_sublist _) h.invariant.1
  · intro hnone
    rw [EventStore.getEventsForAggregate, List.filter_eq_nil_iff]
    intro e he
    simp [hnone e he]

/-- Claim C8, witness on a store holding events of two entities. -/
theorem eventsFor_spec_witness :
    ((EventStore.init.append "AccountCreated" "A"
          { owner := "o" }).2.append
        "AccountCreated" "B" { owner := "p" }).2.getEventsForAggregate "A" =
      ((EventStore.init.append "AccountCreated" "A"
          { owner := "o" }).2.append
        "AccountCreated" "B" { owner := "p" }).2.events.filter
        (fun e => e.aggregateId == "A") :=
  (eventsFor_spec _ "A"
    (Reachable.append _ _ _ _ (Reachable.append _ _ _ _ Reachable.init))).1

/-- Claim C9: for an entity with no stored events, the projected state
is the zero state — balance 0, owner empty, inactive, version 0 —
returned as a normal value, so absence is visible only as
`version = 0`. -/
theorem empty_history_zero_state (s : EventStore) (id : String)
    (h : s.getEventsForAggregate id = []) :
    CommandHandler.getAccountState s id = Account.new id ∧
      (CommandHandler.getAccountState s id).balance = 0 ∧
      (CommandHandler.getAccountState s id).owner = "" ∧
      (CommandHandler.getAccountState s id).isActive = false ∧
      (CommandHandler.getAccountState s id).version = 0 := by
  have hz : CommandHandler.getAccountState s id = Account.new id := by
    rw [CommandHandler.getAccountState, h]
    rfl
  exact ⟨hz, by rw [hz]; rfl, by rw [hz]; rfl, by rw [hz]; rfl,
    by rw [hz]; rfl⟩

/-- Claim C9, witness: the fresh store projects any entity to the zero
state. -/
theorem empty_history_zero_state_witness :
    CommandHandler.getAccountState EventStore.init "ACC404" =
      Account.new "ACC404" :=
  (empty_history_zero_state EventStore.init "ACC404" (by decide)).1

/-- Claim C10: applying an event whose type is none of the four
recognized kinds increments `version` by exactly one and leaves `id`,
`owner`, `balance` and `isActive` unchanged. -/
theorem unknown_kind_frame (a : Account) (e : Event)
    (h1 : e.type ≠ "AccountCreated") (h2 : e.type ≠ "MoneyDeposited")
    (h3 : e.type ≠ "MoneyWithdrawn") (h4 : e.type ≠ "AccountClosed") :
    (a.apply e).version = a.version + 1 ∧ (a.apply e).id = a.id ∧
      (a.apply e).owner = a.owner ∧ (a.apply e).balance = a.balance ∧
      (a.apply e).isActive = a.isActive := by
  rw [Account.apply_unknown a e h1 h2 h3 h4]
  exact ⟨rfl, rfl, rfl, rfl, rfl⟩

/-- Claim C10, witness at a concrete state and unknown-kind event. -/
theorem unknown_kind_frame_witness :
    (Account.apply
        { id := "A", balance := 7, owner := "o", isActive := true,
          version := 3 }
        { id := 9, type := "BogusKind", aggregateId := "A",
          data := {} }).version = 3 + 1 ∧
      (Account.apply
        { id := "A", balance := 7, owner := "o", isActive := true,
          version := 3 }
        { id := 9, type := "BogusKind", aggregateId := "A",
          data := {} }).id = "A" ∧
      (Account.apply
        { id := "A", balance := 7, owner := "o", isActive := true,
          version := 3 }
        { id := 9, type := "BogusKind", aggregateId := "A",
          data := {} }).owner = "o" ∧
      (Account.apply
        { id := "A", balance := 7, owner := "o", isActive := true,
          version := 3 }
        { id := 9, type := "BogusKind", aggregateId := "A",
          data := {} }).balance = 7 ∧
      (Account.apply
        { id := "A", balance := 7, owner := "o", isActive := true,
          version := 3 }
        { id := 9, type := "BogusKind", aggregateId := "A",
          data := {} }).isActive = true :=
  unknown_kind_frame
    { id := "A", balance := 7, owner := "o", isActive := true, version := 3 }
    { id := 9, type := "BogusKind", aggregateId := "A", data := {} }
    (by decide) (by decide) (by decide) (by decide)
